import Mathlib

/-!
Shallow embedding of the ADXL345 i2c driver (src/ADXL345.js) from the
skylarstein/adxl345-sensor repository, together with theorems settling the
frozen claims about its specification.

Modelling conventions:
* JavaScript numbers that hold register addresses and register bytes are
  modelled as Nat; signed decoding results as Int; physical quantities
  (g, m/s squared) as exact rationals (the idealisation of IEEE doubles).
* A JavaScript value that may be a number, null or undefined (the inputs of
  setMeasurementRange / setDataRate) is modelled by JSVal.
* The i2c bus is an external collaborator: an operation is modelled by the
  ordered list of bus transactions it issues (Txn), the device register
  state it produces (Regs, a function from register address to byte), and
  its result (Except JSError).  A bus transaction argument that is the
  JavaScript value undefined is modelled as none : Option Nat.
* The constructor of the ADXL345 class assigns a fixed list of numeric
  register-address fields on the instance (src/ADXL345.js lines 18-31).
  Property lookup on the instance is modelled by getProp; reading a property
  the constructor never assigned yields none (JavaScript undefined).  The
  two non-integer fields ADXL345_MG2G_SCALE_FACTOR and EARTH_GRAVITY_MS2
  (lines 32-33) are modelled as the rational constants below; no code path
  looks them up through getProp.
-/

namespace ADXL345

/-- Register address constants, src/ADXL345.js lines 18-30. -/
def ADXL345_REG_DEVID : Nat := 0x00

def ADXL345_REG_OFSX : Nat := 0x1E

def ADXL345_REG_OFSY : Nat := 0x1F

def ADXL345_REG_OFSZ : Nat := 0x20

def ADXL345_REG_BW_RATE : Nat := 0x2C

def ADXL345_REG_POWER_CTL : Nat := 0x2D

def ADXL345_REG_DATA_FORMAT : Nat := 0x31

def ADXL345_REG_DATAX0 : Nat := 0x32

/-- Scale factor 0.004 g per LSB, src/ADXL345.js line 32. -/
def ADXL345_MG2G_SCALE_FACTOR : ℚ := 4 / 1000

/-- Gravity constant 9.80665, src/ADXL345.js line 33. -/
def EARTH_GRAVITY_MS2 : ℚ := 980665 / 100000

/-- static DEVICE_ID(), src/ADXL345.js line 311. -/
def DEVICE_ID : Nat := 0xE5

/-- static RANGE_2_G(), src/ADXL345.js line 317. -/
def RANGE_2_G : Nat := 0b00

/-- static RANGE_4_G(), src/ADXL345.js line 318. -/
def RANGE_4_G : Nat := 0b01

/-- static RANGE_8_G(), src/ADXL345.js line 319. -/
def RANGE_8_G : Nat := 0b10

/-- static RANGE_16_G(), src/ADXL345.js line 320. -/
def RANGE_16_G : Nat := 0b11

/-- static DATARATE constants, src/ADXL345.js lines 324-339. -/
def DATARATE_0_10_HZ : Nat := 0b0000

def DATARATE_0_20_HZ : Nat := 0b0001

def DATARATE_0_39_HZ : Nat := 0b0010

def DATARATE_0_78_HZ : Nat := 0b0011

def DATARATE_1_56_HZ : Nat := 0b0100

def DATARATE_3_13_HZ : Nat := 0b0101

def DATARATE_6_25HZ : Nat := 0b0110

def DATARATE_12_5_HZ : Nat := 0b0111

def DATARATE_25_HZ : Nat := 0b1000

def DATARATE_50_HZ : Nat := 0b1001

def DATARATE_100_HZ : Nat := 0b1010

def DATARATE_200_HZ : Nat := 0b1011

def DATARATE_400_HZ : Nat := 0b1100

def DATARATE_800_HZ : Nat := 0b1101

def DATARATE_1600_HZ : Nat := 0b1110

def DATARATE_3200_HZ : Nat := 0b1111

/-- The numeric instance fields assigned by the constructor,
src/ADXL345.js lines 18-30, in source order. -/
def instanceFields : List (String × Nat) :=
  [ ("ADXL345_REG_DEVID", 0x00),
    ("ADXL345_REG_OFSX", 0x1E),
    ("ADXL345_REG_OFSY", 0x1F),
    ("ADXL345_REG_OFSZ", 0x20),
    ("ADXL345_REG_BW_RATE", 0x2C),
    ("ADXL345_REG_POWER_CTL", 0x2D),
    ("ADXL345_REG_DATA_FORMAT", 0x31),
    ("ADXL345_REG_DATAX0", 0x32),
    ("ADXL345_REG_DATAX1", 0x33),
    ("ADXL345_REG_DATAY0", 0x34),
    ("ADXL345_REG_DATAY1", 0x35),
    ("ADXL345_REG_DATAZ0", 0x36),
    ("ADXL345_REG_DATAZ1", 0x37) ]

/-- JavaScript property access this.name on the constructed instance:
some value when the constructor assigned the field, none (undefined)
otherwise. -/
def getProp (name : String) : Option Nat :=
  (instanceFields.find? (fun p => p.1 == name)).map (fun p => p.2)

/-- A JavaScript argument value for the configuration setters: a number,
null, or undefined (absent argument). -/
inductive JSVal : Type
  | num (n : Nat)
  | null
  | undef
deriving DecidableEq, Repr

/-- The error values the driver rejects with, each carrying the data the
interpolated message carries in the source. -/
inductive JSError : Type
  | unexpectedDeviceId (actual : Nat)
  | invalidRange (value : JSVal)
  | invalidDataRate (value : JSVal)
deriving DecidableEq, Repr

/-- One i2c bus transaction as issued through the i2c-bus collaborator.
Arguments are Option Nat: none models a JavaScript undefined being passed
where a register address or byte value is expected. -/
inductive Txn : Type
  | writeByte (register : Option Nat) (value : Option Nat)
  | readByte (register : Option Nat)
  | readI2cBlock (register : Option Nat) (length : Nat)
deriving DecidableEq, Repr

/-- Device register file: register address to current byte content. -/
abbrev Regs : Type := Nat → Nat

/-- Writing one register of the device. -/
def updateReg (regs : Regs) (r v : Nat) : Regs :=
  fun a => if a = r then v else regs a

/-- Outcome of one driver operation: its settled result, the device
register state afterwards, and the ordered bus transactions issued. -/
structure OpOut (α : Type) : Type where
  result : Except JSError α
  regs : Regs
  txns : List Txn

/-- static isValidRange(range), src/ADXL345.js lines 227-239: a switch
over the four RANGE constants (strict equality, so null/undefined match
no case). -/
def isValidRange (range : JSVal) : Bool :=
  range == JSVal.num RANGE_2_G || range == JSVal.num RANGE_4_G ||
  range == JSVal.num RANGE_8_G || range == JSVal.num RANGE_16_G

/-- static isValidDataRate(dataRate), src/ADXL345.js lines 241-265: a
switch over the sixteen DATARATE constants. -/
def isValidDataRate (dataRate : JSVal) : Bool :=
  dataRate == JSVal.num DATARATE_0_10_HZ || dataRate == JSVal.num DATARATE_0_20_HZ ||
  dataRate == JSVal.num DATARATE_0_39_HZ || dataRate == JSVal.num DATARATE_0_78_HZ ||
  dataRate == JSVal.num DATARATE_1_56_HZ || dataRate == JSVal.num DATARATE_3_13_HZ ||
  dataRate == JSVal.num DATARATE_6_25HZ || dataRate == JSVal.num DATARATE_12_5_HZ ||
  dataRate == JSVal.num DATARATE_25_HZ || dataRate == JSVal.num DATARATE_50_HZ ||
  dataRate == JSVal.num DATARATE_100_HZ || dataRate == JSVal.num DATARATE_200_HZ ||
  dataRate == JSVal.num DATARATE_400_HZ || dataRate == JSVal.num DATARATE_800_HZ ||
  dataRate == JSVal.num DATARATE_1600_HZ || dataRate == JSVal.num DATARATE_3200_HZ

/-- uint16(msb, lsb), src/ADXL345.js lines 218-220: msb << 8 | lsb. -/
def uint16 (msb lsb : Nat) : Nat :=
  (msb <<< 8) ||| lsb

/-- int16(msb, lsb), src/ADXL345.js lines 222-225: two's-complement
reinterpretation of uint16. -/
def int16 (msb lsb : Nat) : Int :=
  let val := uint16 msb lsb
  if val > 32767 then (val : Int) - 65536 else (val : Int)

/-- init(), src/ADXL345.js lines 70-78, on a device whose identity register
reads devId: the bus transactions issued.  On a matching identity, init
calls setPowerCtl (line 76) with this.POWER_CTL_MEASURE, a field the
constructor never assigns, and setPowerCtl (lines 66-68) passes
this.ADXL345ADXL345_REG_POWER_CTL, also never assigned, as the register:
both property lookups produce undefined (none). -/
def initTxns (devId : Nat) : List Txn :=
  if devId ≠ DEVICE_ID then
    [Txn.readByte (some ADXL345_REG_DEVID)]
  else
    [Txn.readByte (some ADXL345_REG_DEVID),
     Txn.writeByte (getProp "ADXL345ADXL345_REG_POWER_CTL") (getProp "POWER_CTL_MEASURE")]

/-- init(), src/ADXL345.js lines 70-78: the settled promise.  A mismatched
identity rejects with the Unexpected-device error carrying the actual
identity byte (line 73); a matching identity resolves with the identity
after the power-control write settles (line 76). -/
def initResult (devId : Nat) : Except JSError Nat :=
  if devId ≠ DEVICE_ID then
    Except.error (JSError.unexpectedDeviceId devId)
  else
    Except.ok devId

/-- getAcceleration, src/ADXL345.js lines 80-107: the bus transactions
issued, in order.  Line 85 first writes the byte 0 to ADXL345_REG_DATAX0
(the request), then line 90 performs the 6-byte block read from
ADXL345_REG_DATAX0. -/
def getAccelerationTxns : List Txn :=
  [Txn.writeByte (some ADXL345_REG_DATAX0) (some 0),
   Txn.readI2cBlock (some ADXL345_REG_DATAX0) 6]

/-- An acceleration sample as resolved by getAcceleration: three rational
components and a unit tag. -/
structure Sample : Type where
  x : ℚ
  y : ℚ
  z : ℚ
  units : String
deriving DecidableEq, Repr

/-- getAcceleration, src/ADXL345.js lines 95-103: the sample computed from
the 6 raw bytes of the block read (buffer index 0 to 5). -/
def getAccelerationSample (buffer : Fin 6 → Nat) (gForce : Bool) : Sample :=
  let x : ℚ := (int16 (buffer 1) (buffer 0) : ℚ) * ADXL345_MG2G_SCALE_FACTOR
  let y : ℚ := (int16 (buffer 3) (buffer 2) : ℚ) * ADXL345_MG2G_SCALE_FACTOR
  let z : ℚ := (int16 (buffer 5) (buffer 4) : ℚ) * ADXL345_MG2G_SCALE_FACTOR
  { x := if gForce then x else x * EARTH_GRAVITY_MS2
    y := if gForce then y else y * EARTH_GRAVITY_MS2
    z := if gForce then z else z * EARTH_GRAVITY_MS2
    units := if gForce then "g" else "m/s²" }

/-- setMeasurementRange(range), src/ADXL345.js lines 109-131: reject with
the invalid-range error before any bus transaction when isValidRange
fails (lines 111-113); otherwise read the data-format register, clear its
low 4 bits (format &= ~0b1111, which in 32-bit JavaScript arithmetic is a
mask with 0xFFFFFFF0), OR in the range code, OR in the full-resolution
bit 0b1000, and write the result back (lines 117-128). -/
def setMeasurementRange (regs : Regs) (range : JSVal) : OpOut Unit :=
  if isValidRange range then
    match range with
    | JSVal.num g =>
        let format := regs ADXL345_REG_DATA_FORMAT
        let format1 := (format % 4294967296) &&& 0xFFFFFFF0
        let format2 := format1 ||| g
        let format3 := format2 ||| 0b1000
        { result := Except.ok ()
          regs := updateReg regs ADXL345_REG_DATA_FORMAT format3
          txns := [Txn.readByte (some ADXL345_REG_DATA_FORMAT),
                   Txn.writeByte (some ADXL345_REG_DATA_FORMAT) (some format3)] }
    | _ =>
        { result := Except.error (JSError.invalidRange range), regs := regs, txns := [] }
  else
    { result := Except.error (JSError.invalidRange range), regs := regs, txns := [] }

/-- getMeasurementRange(), src/ADXL345.js lines 133-142: read the
data-format register and keep its low 2 bits. -/
def getMeasurementRange (regs : Regs) : OpOut Nat :=
  { result := Except.ok (regs ADXL345_REG_DATA_FORMAT &&& 0b11)
    regs := regs
    txns := [Txn.readByte (some ADXL345_REG_DATA_FORMAT)] }

/-- setDataRate(dataRate), src/ADXL345.js lines 144-157: reject with the
invalid-data-rate error before any bus transaction when isValidDataRate
fails (lines 146-148); otherwise write dataRate & 0b1111 to the BW_RATE
register directly (line 153), with no preceding read. -/
def setDataRate (regs : Regs) (dataRate : JSVal) : OpOut Unit :=
  if isValidDataRate dataRate then
    match dataRate with
    | JSVal.num r =>
        { result := Except.ok ()
          regs := updateReg regs ADXL345_REG_BW_RATE (r &&& 0b1111)
          txns := [Txn.writeByte (some ADXL345_REG_BW_RATE) (some (r &&& 0b1111))] }
    | _ =>
        { result := Except.error (JSError.invalidDataRate dataRate), regs := regs, txns := [] }
  else
    { result := Except.error (JSError.invalidDataRate dataRate), regs := regs, txns := [] }

/-- getDataRate(), src/ADXL345.js lines 159-168: read the BW_RATE register
and keep its low 4 bits. -/
def getDataRate (regs : Regs) : OpOut Nat :=
  { result := Except.ok (regs ADXL345_REG_BW_RATE &&& 0b1111)
    regs := regs
    txns := [Txn.readByte (some ADXL345_REG_BW_RATE)] }

/-- setOffsetX(value), src/ADXL345.js lines 178-184: a direct single-byte
write to the X-offset register. -/
def setOffsetX (regs : Regs) (value : Nat) : OpOut Unit :=
  { result := Except.ok ()
    regs := updateReg regs ADXL345_REG_OFSX value
    txns := [Txn.writeByte (some ADXL345_REG_OFSX) (some value)] }

/-- setOffsetY(value), src/ADXL345.js lines 186-192. -/
def setOffsetY (regs : Regs) (value : Nat) : OpOut Unit :=
  { result := Except.ok ()
    regs := updateReg regs ADXL345_REG_OFSY value
    txns := [Txn.writeByte (some ADXL345_REG_OFSY) (some value)] }

/-- setOffsetZ(value), src/ADXL345.js lines 194-200. -/
def setOffsetZ (regs : Regs) (value : Nat) : OpOut Unit :=
  { result := Except.ok ()
    regs := updateReg regs ADXL345_REG_OFSZ value
    txns := [Txn.writeByte (some ADXL345_REG_OFSZ) (some value)] }

/-- The record getOffsets resolves with. -/
structure Offsets : Type where
  x : Nat
  y : Nat
  z : Nat
deriving DecidableEq, Repr

/-- getOffsets(), src/ADXL345.js lines 202-216: one 3-byte block read
starting at the X-offset register; the three raw buffer bytes are returned
as x, y, z with no further decoding. -/
def getOffsets (regs : Regs) : OpOut Offsets :=
  { result := Except.ok
      { x := regs ADXL345_REG_OFSX
        y := regs (ADXL345_REG_OFSX + 1)
        z := regs (ADXL345_REG_OFSX + 2) }
    regs := regs
    txns := [Txn.readI2cBlock (some ADXL345_REG_OFSX) 3] }

end ADXL345

namespace ADXL345

/- Helper lemmas shared by several proofs. -/

set_option maxRecDepth 40000 in
/-- The byte computed by the read-modify-write of setMeasurementRange:
for every prior byte b and defined range code g, the low 2 bits decode
back to g, the full-resolution bit 3 is set, and the upper bits agree
with b. -/
lemma encodeFormat_bits :
    ∀ b : Nat, b < 256 → ∀ g : Nat, g < 4 →
      ((((b % 4294967296) &&& 0xFFFFFFF0) ||| g ||| 0b1000) &&& 0b11 = g) ∧
      ((((b % 4294967296) &&& 0xFFFFFFF0) ||| g ||| 0b1000).testBit 3 = true) ∧
      ((((b % 4294967296) &&& 0xFFFFFFF0) ||| g ||| 0b1000) >>> 4 = b >>> 4) := by
  decide

/-- Every defined range code passes isValidRange. -/
lemma isValidRange_of_lt (g : Nat) (hg : g < 4) : isValidRange (JSVal.num g) = true := by
  interval_cases g <;> decide

/-- Every defined rate code passes isValidDataRate, and masking to the low
4 bits twice gives the code back. -/
lemma isValidDataRate_of_lt :
    ∀ r : Nat, r < 16 → isValidDataRate (JSVal.num r) = true ∧ (r &&& 0b1111) &&& 0b1111 = r := by
  decide

/-- Reading back the register just written. -/
lemma updateReg_self (regs : Regs) (r v : Nat) : updateReg regs r v r = v := if_pos rfl

/-- The valid branch of setDataRate, written out. -/
lemma setDataRate_valid (regs : Regs) (r : Nat) (hv : isValidDataRate (JSVal.num r) = true) :
    setDataRate regs (JSVal.num r) =
      { result := Except.ok ()
        regs := updateReg regs ADXL345_REG_BW_RATE (r &&& 0b1111)
        txns := [Txn.writeByte (some ADXL345_REG_BW_RATE) (some (r &&& 0b1111))] } := by
  unfold setDataRate
  rw [hv]
  rfl

end ADXL345

namespace ADXL345

/-- C1: claimed: on a device whose identity reads 0xE5, init writes the
byte 0x08 to the power-control register 0x2D and resolves with 0xE5.
What the code does instead (src/ADXL345.js lines 66-68 and 76): the
measurement-enable write passes register this.ADXL345ADXL345_REG_POWER_CTL
and value this.POWER_CTL_MEASURE, neither of which the constructor ever
assigns, so both arguments are undefined: the issued transaction is
writeByte undefined undefined, and the intended writeByte 0x2D 0x08 is
never issued. -/
theorem C1_init_measurement_write_bug :
    initTxns DEVICE_ID =
      [Txn.readByte (some ADXL345_REG_DEVID), Txn.writeByte none none] ∧
    Txn.writeByte (some ADXL345_REG_POWER_CTL) (some 0x08) ∉ initTxns DEVICE_ID ∧
    getProp "ADXL345ADXL345_REG_POWER_CTL" = none ∧
    getProp "POWER_CTL_MEASURE" = none ∧
    initResult DEVICE_ID = Except.ok DEVICE_ID := by
  refine ⟨by decide, by decide, by decide, by decide, rfl⟩

/-- C2 counterexample: getAcceleration does not issue exactly one bus
transaction; its transaction list has length 2 and begins with a write of
0 to register 0x32 before the 6-byte block read. -/
theorem C2_counterexample_extra_write :
    getAccelerationTxns ≠ [Txn.readI2cBlock (some ADXL345_REG_DATAX0) 6] ∧
    getAccelerationTxns.length = 2 ∧
    getAccelerationTxns.head? = some (Txn.writeByte (some ADXL345_REG_DATAX0) (some 0)) := by
  refine ⟨by decide, rfl, rfl⟩

/-- C2 amended: getAcceleration issues exactly two bus transactions, in
order: a single-byte write of the value 0 to the first acceleration output
register 0x32, then a single 6-byte block read starting at 0x32; the axis
data all comes from that one block read. -/
theorem C2_write_then_block_read :
    getAccelerationTxns =
      [Txn.writeByte (some ADXL345_REG_DATAX0) (some 0),
       Txn.readI2cBlock (some ADXL345_REG_DATAX0) 6] := rfl

/-- C3: for every identity byte a different from 0xE5, init rejects with
the unexpected-device error carrying a, and the only bus transaction
issued is the identity read: in particular no write of any kind (so none
to the power-control register) is issued. -/
theorem C3_init_rejects_unexpected_device (a : Nat) (h : a ≠ DEVICE_ID) :
    initResult a = Except.error (JSError.unexpectedDeviceId a) ∧
    initTxns a = [Txn.readByte (some ADXL345_REG_DEVID)] ∧
    ∀ r v, Txn.writeByte r v ∉ initTxns a := by
  refine ⟨by simp [initResult, h], by simp [initTxns, h], ?_⟩
  intro r v
  simp [initTxns, h]

/-- C3 witness: the concrete identity byte 0xFF. -/
theorem C3_witness :
    (0xFF : Nat) ≠ DEVICE_ID ∧
    initResult 0xFF = Except.error (JSError.unexpectedDeviceId 0xFF) ∧
    initTxns 0xFF = [Txn.readByte (some ADXL345_REG_DEVID)] :=
  ⟨by decide, (C3_init_rejects_unexpected_device 0xFF (by decide)).1,
    (C3_init_rejects_unexpected_device 0xFF (by decide)).2.1⟩

/-- C4: for every prior data-format byte and every defined range code g,
setMeasurementRange succeeds, a following getMeasurementRange returns g,
and the written data-format byte has the full-resolution bit 3 set. -/
theorem C4_range_roundtrip_full_resolution (regs : Regs) (g : Nat)
    (hb : regs ADXL345_REG_DATA_FORMAT < 256) (hg : g < 4) :
    (setMeasurementRange regs (JSVal.num g)).result = Except.ok () ∧
    (getMeasurementRange (setMeasurementRange regs (JSVal.num g)).regs).result = Except.ok g ∧
    ((setMeasurementRange regs (JSVal.num g)).regs ADXL345_REG_DATA_FORMAT).testBit 3 = true := by
  have hv := isValidRange_of_lt g hg
  have hbits := encodeFormat_bits (regs ADXL345_REG_DATA_FORMAT) hb g hg
  refine ⟨?_, ?_, ?_⟩ <;>
    simp [setMeasurementRange, hv, getMeasurementRange, updateReg, hbits.1, hbits.2.1]

/-- C4 witness: prior byte 0 (a fresh register file) and range code 2. -/
theorem C4_witness :
    ((fun _ => 0 : Regs) ADXL345_REG_DATA_FORMAT < 256) ∧ ((2 : Nat) < 4) ∧
    ((setMeasurementRange (fun _ => 0) (JSVal.num 2)).result = Except.ok () ∧
     (getMeasurementRange (setMeasurementRange (fun _ => 0) (JSVal.num 2)).regs).result =
       Except.ok 2 ∧
     ((setMeasurementRange (fun _ => 0) (JSVal.num 2)).regs ADXL345_REG_DATA_FORMAT).testBit 3 =
       true) :=
  ⟨by decide, by decide, C4_range_roundtrip_full_resolution (fun _ => 0) 2 (by decide) (by decide)⟩

/-- C5: for every defined rate code r, setDataRate succeeds, writes the
byte r & 0b1111 to the BW_RATE register, and a following getDataRate
(which masks to the low 4 bits) returns r. -/
theorem C5_rate_roundtrip (regs : Regs) (r : Nat) (hr : r < 16) :
    (setDataRate regs (JSVal.num r)).result = Except.ok () ∧
    (setDataRate regs (JSVal.num r)).txns =
      [Txn.writeByte (some ADXL345_REG_BW_RATE) (some (r &&& 0b1111))] ∧
    (getDataRate (setDataRate regs (JSVal.num r)).regs).result = Except.ok r := by
  have hv := (isValidDataRate_of_lt r hr).1
  have hm := (isValidDataRate_of_lt r hr).2
  rw [setDataRate_valid regs r hv]
  refine ⟨rfl, rfl, ?_⟩
  show Except.ok (updateReg regs ADXL345_REG_BW_RATE (r &&& 0b1111) ADXL345_REG_BW_RATE &&& 0b1111)
    = Except.ok r
  rw [updateReg_self, hm]

/-- C5 witness: the concrete rate code 0b1010 (100 Hz). -/
theorem C5_witness :
    ((10 : Nat) < 16) ∧
    ((setDataRate (fun _ => 0) (JSVal.num 10)).result = Except.ok () ∧
     (setDataRate (fun _ => 0) (JSVal.num 10)).txns =
       [Txn.writeByte (some ADXL345_REG_BW_RATE) (some (10 &&& 0b1111))] ∧
     (getDataRate (setDataRate (fun _ => 0) (JSVal.num 10)).regs).result = Except.ok 10) :=
  ⟨by decide, C5_rate_roundtrip (fun _ => 0) 10 (by decide)⟩

end ADXL345

namespace ADXL345

/-- The valid branch of setMeasurementRange, written out. -/
lemma setMeasurementRange_valid (regs : Regs) (g : Nat)
    (hv : isValidRange (JSVal.num g) = true) :
    setMeasurementRange regs (JSVal.num g) =
      { result := Except.ok ()
        regs := updateReg regs ADXL345_REG_DATA_FORMAT
          ((((regs ADXL345_REG_DATA_FORMAT % 4294967296) &&& 0xFFFFFFF0) ||| g) ||| 0b1000)
        txns := [Txn.readByte (some ADXL345_REG_DATA_FORMAT),
                 Txn.writeByte (some ADXL345_REG_DATA_FORMAT)
                   (some ((((regs ADXL345_REG_DATA_FORMAT % 4294967296) &&& 0xFFFFFFF0) ||| g)
                     ||| 0b1000))] } := by
  unfold setMeasurementRange
  rw [hv]
  rfl

/-- The invalid branch of setMeasurementRange, written out. -/
lemma setMeasurementRange_invalid (regs : Regs) (v : JSVal) (h : isValidRange v = false) :
    setMeasurementRange regs v =
      { result := Except.error (JSError.invalidRange v), regs := regs, txns := [] } := by
  unfold setMeasurementRange
  rw [h]
  rfl

/-- The invalid branch of setDataRate, written out. -/
lemma setDataRate_invalid (regs : Regs) (v : JSVal) (h : isValidDataRate v = false) :
    setDataRate regs v =
      { result := Except.error (JSError.invalidDataRate v), regs := regs, txns := [] } := by
  unfold setDataRate
  rw [h]
  rfl

/-- C6: for every prior data-format byte and every valid range code, the
byte written back by setMeasurementRange agrees with the prior byte on
everything above the low 4 bits: the shifted-out value matches, and every
bit of index 4 or higher is unchanged. -/
theorem C6_format_upper_bits_preserved (regs : Regs) (g : Nat)
    (hb : regs ADXL345_REG_DATA_FORMAT < 256) (hg : g < 4) :
    ((setMeasurementRange regs (JSVal.num g)).regs ADXL345_REG_DATA_FORMAT) >>> 4
        = regs ADXL345_REG_DATA_FORMAT >>> 4 ∧
    ∀ i, 4 ≤ i →
      ((setMeasurementRange regs (JSVal.num g)).regs ADXL345_REG_DATA_FORMAT).testBit i
        = (regs ADXL345_REG_DATA_FORMAT).testBit i := by
  have hv := isValidRange_of_lt g hg
  have hbits := encodeFormat_bits (regs ADXL345_REG_DATA_FORMAT) hb g hg
  rw [setMeasurementRange_valid regs g hv]
  have hreg : updateReg regs ADXL345_REG_DATA_FORMAT
      ((((regs ADXL345_REG_DATA_FORMAT % 4294967296) &&& 0xFFFFFFF0) ||| g) ||| 0b1000)
      ADXL345_REG_DATA_FORMAT
      = (((regs ADXL345_REG_DATA_FORMAT % 4294967296) &&& 0xFFFFFFF0) ||| g) ||| 0b1000 :=
    updateReg_self regs ADXL345_REG_DATA_FORMAT _
  constructor
  · show updateReg regs ADXL345_REG_DATA_FORMAT
        ((((regs ADXL345_REG_DATA_FORMAT % 4294967296) &&& 0xFFFFFFF0) ||| g) ||| 0b1000)
        ADXL345_REG_DATA_FORMAT >>> 4 = regs ADXL345_REG_DATA_FORMAT >>> 4
    rw [hreg]
    exact hbits.2.2
  · intro i hi
    show (updateReg regs ADXL345_REG_DATA_FORMAT
        ((((regs ADXL345_REG_DATA_FORMAT % 4294967296) &&& 0xFFFFFFF0) ||| g) ||| 0b1000)
        ADXL345_REG_DATA_FORMAT).testBit i = (regs ADXL345_REG_DATA_FORMAT).testBit i
    rw [hreg]
    obtain ⟨j, rfl⟩ : ∃ j, i = 4 + j := ⟨i - 4, by omega⟩
    rw [← Nat.testBit_shiftRight, ← Nat.testBit_shiftRight, hbits.2.2]

/-- C6 witness: prior byte 0b10100101 and range code 1. -/
theorem C6_witness :
    ((fun _ => 0b10100101 : Regs) ADXL345_REG_DATA_FORMAT < 256) ∧ ((1 : Nat) < 4) ∧
    (((setMeasurementRange (fun _ => 0b10100101) (JSVal.num 1)).regs
        ADXL345_REG_DATA_FORMAT) >>> 4
      = (fun _ => 0b10100101 : Regs) ADXL345_REG_DATA_FORMAT >>> 4 ∧
     ∀ i, 4 ≤ i →
      ((setMeasurementRange (fun _ => 0b10100101) (JSVal.num 1)).regs
          ADXL345_REG_DATA_FORMAT).testBit i
        = ((fun _ => 0b10100101 : Regs) ADXL345_REG_DATA_FORMAT).testBit i) :=
  ⟨by decide, by decide,
   C6_format_upper_bits_preserved (fun _ => 0b10100101) 1 (by decide) (by decide)⟩

/-- C7: for every input value that is not a defined code - any out-of-range
number such as 0xFFFF, null, or an absent argument - setMeasurementRange
and setDataRate reject with the invalid-configuration error carrying the
offending value, issue no bus transaction at all, and leave the device
register state unchanged. -/
theorem C7_invalid_rejected_before_bus (regs : Regs) (v : JSVal) :
    (isValidRange v = false →
      (setMeasurementRange regs v).result = Except.error (JSError.invalidRange v) ∧
      (setMeasurementRange regs v).regs = regs ∧
      (setMeasurementRange regs v).txns = []) ∧
    (isValidDataRate v = false →
      (setDataRate regs v).result = Except.error (JSError.invalidDataRate v) ∧
      (setDataRate regs v).regs = regs ∧
      (setDataRate regs v).txns = []) := by
  constructor
  · intro h
    rw [setMeasurementRange_invalid regs v h]
    exact ⟨rfl, rfl, rfl⟩
  · intro h
    rw [setDataRate_invalid regs v h]
    exact ⟨rfl, rfl, rfl⟩

/-- C7 witness: the boundary number 0xFFFF for setMeasurementRange and
null for setDataRate. -/
theorem C7_witness :
    isValidRange (JSVal.num 0xFFFF) = false ∧
    isValidDataRate JSVal.null = false ∧
    ((setMeasurementRange (fun _ => 0) (JSVal.num 0xFFFF)).result =
        Except.error (JSError.invalidRange (JSVal.num 0xFFFF)) ∧
      (setMeasurementRange (fun _ => 0) (JSVal.num 0xFFFF)).regs = (fun _ => 0) ∧
      (setMeasurementRange (fun _ => 0) (JSVal.num 0xFFFF)).txns = []) ∧
    ((setDataRate (fun _ => 0) JSVal.null).result =
        Except.error (JSError.invalidDataRate JSVal.null) ∧
      (setDataRate (fun _ => 0) JSVal.null).regs = (fun _ => 0) ∧
      (setDataRate (fun _ => 0) JSVal.null).txns = []) :=
  ⟨by decide, by decide,
   (C7_invalid_rejected_before_bus (fun _ => 0) (JSVal.num 0xFFFF)).1 (by decide),
   (C7_invalid_rejected_before_bus (fun _ => 0) JSVal.null).2 (by decide)⟩

end ADXL345

namespace ADXL345

/-- C8 counterexample: the decoded value for low byte 0x10 and high byte
0x01 is 272 and scales to 1.088 g, but multiplying 1.088 by 9.80665 gives
exactly 10.6696352, which is not 10.6760752 and differs from it by more
than 0.001 - so the product is not approximately 10.6760752. -/
theorem C8_counterexample_product_value :
    int16 0x01 0x10 = 272 ∧
    (int16 0x01 0x10 : ℚ) * ADXL345_MG2G_SCALE_FACTOR = 1088 / 1000 ∧
    (int16 0x01 0x10 : ℚ) * ADXL345_MG2G_SCALE_FACTOR * EARTH_GRAVITY_MS2
      = 106696352 / 10000000 ∧
    (int16 0x01 0x10 : ℚ) * ADXL345_MG2G_SCALE_FACTOR * EARTH_GRAVITY_MS2
      ≠ 106760752 / 10000000 ∧
    (106760752 / 10000000 : ℚ)
        - (int16 0x01 0x10 : ℚ) * ADXL345_MG2G_SCALE_FACTOR * EARTH_GRAVITY_MS2
      > 1 / 1000 := by
  have h : int16 0x01 0x10 = 272 := by decide
  refine ⟨h, ?_, ?_, ?_, ?_⟩ <;>
    rw [h] <;> norm_num [ADXL345_MG2G_SCALE_FACTOR, EARTH_GRAVITY_MS2]

/-- C8 amended: int16 applied to high byte 0x01 and low byte 0x10 returns
272, and in general any combined value greater than 32767 is mapped to
value minus 65536; multiplying 272 by the scale factor 0.004 yields
exactly 1.088 g, and multiplying that by 9.80665 yields exactly
10.6696352 (approximately 10.67) in exact rational arithmetic. -/
theorem C8_decode_and_scale :
    (∀ msb lsb : Nat, uint16 msb lsb > 32767 →
      int16 msb lsb = (uint16 msb lsb : Int) - 65536) ∧
    int16 0x01 0x10 = 272 ∧
    (int16 0x01 0x10 : ℚ) * ADXL345_MG2G_SCALE_FACTOR = 1088 / 1000 ∧
    (int16 0x01 0x10 : ℚ) * ADXL345_MG2G_SCALE_FACTOR * EARTH_GRAVITY_MS2
      = 106696352 / 10000000 := by
  have h : int16 0x01 0x10 = 272 := by decide
  refine ⟨?_, h, ?_, ?_⟩
  · intro msb lsb hgt
    simp only [int16]
    rw [if_pos hgt]
  · rw [h]; norm_num [ADXL345_MG2G_SCALE_FACTOR]
  · rw [h]; norm_num [ADXL345_MG2G_SCALE_FACTOR, EARTH_GRAVITY_MS2]

/-- C8 witness: the combined value 0x8000 = 32768 is above 32767 and is
decoded as 32768 - 65536 = -32768. -/
theorem C8_witness :
    uint16 0x80 0x00 > 32767 ∧ int16 0x80 0x00 = (uint16 0x80 0x00 : Int) - 65536 :=
  ⟨by decide, C8_decode_and_scale.1 0x80 0x00 (by decide)⟩

/-- C9: setting the offsets X=1, Y=2, Z=3 through the three single-byte
writes and then reading them back returns exactly x=1, y=2, z=3, and the
read is realised as one 3-byte block read starting at the X-offset
register 0x1E. -/
theorem C9_offsets_roundtrip (regs : Regs) :
    (getOffsets (setOffsetZ (setOffsetY (setOffsetX regs 1).regs 2).regs 3).regs).result =
      Except.ok { x := 1, y := 2, z := 3 } ∧
    (getOffsets (setOffsetZ (setOffsetY (setOffsetX regs 1).regs 2).regs 3).regs).txns =
      [Txn.readI2cBlock (some ADXL345_REG_OFSX) 3] := by
  refine ⟨?_, rfl⟩
  show Except.ok (Offsets.mk
      (updateReg (updateReg (updateReg regs ADXL345_REG_OFSX 1) ADXL345_REG_OFSY 2)
        ADXL345_REG_OFSZ 3 ADXL345_REG_OFSX)
      (updateReg (updateReg (updateReg regs ADXL345_REG_OFSX 1) ADXL345_REG_OFSY 2)
        ADXL345_REG_OFSZ 3 (ADXL345_REG_OFSX + 1))
      (updateReg (updateReg (updateReg regs ADXL345_REG_OFSX 1) ADXL345_REG_OFSY 2)
        ADXL345_REG_OFSZ 3 (ADXL345_REG_OFSX + 2)))
    = Except.ok (Offsets.mk 1 2 3)
  norm_num [updateReg, ADXL345_REG_OFSX, ADXL345_REG_OFSY, ADXL345_REG_OFSZ]

/-- C10: getOffsets returns the raw unsigned register byte and performs no
two's-complement decoding: a negative int8 offset v, stored as the byte
v + 256, is read back as v + 256 (not v), while a non-negative offset
0..127 is read back unchanged - so the signed set/get round-trip holds
only for 0..127. -/
theorem C10_offsets_raw_unsigned :
    (∀ (regs : Regs) (v : ℤ), -128 ≤ v → v < 0 →
      (getOffsets (setOffsetX regs (v + 256).toNat).regs).result =
        Except.ok { x := (v + 256).toNat, y := regs ADXL345_REG_OFSY,
                    z := regs ADXL345_REG_OFSZ } ∧
      ((v + 256).toNat : ℤ) ≠ v) ∧
    (∀ (regs : Regs) (v : ℤ), 0 ≤ v → v ≤ 127 →
      (getOffsets (setOffsetX regs v.toNat).regs).result =
        Except.ok { x := v.toNat, y := regs ADXL345_REG_OFSY,
                    z := regs ADXL345_REG_OFSZ } ∧
      (v.toNat : ℤ) = v) := by
  have hread : ∀ (regs : Regs) (b : Nat),
      (getOffsets (setOffsetX regs b).regs).result =
        Except.ok { x := b, y := regs ADXL345_REG_OFSY, z := regs ADXL345_REG_OFSZ } := by
    intro regs b
    show Except.ok (Offsets.mk
        (updateReg regs ADXL345_REG_OFSX b ADXL345_REG_OFSX)
        (updateReg regs ADXL345_REG_OFSX b (ADXL345_REG_OFSX + 1))
        (updateReg regs ADXL345_REG_OFSX b (ADXL345_REG_OFSX + 2)))
      = Except.ok (Offsets.mk b (regs ADXL345_REG_OFSY) (regs ADXL345_REG_OFSZ))
    norm_num [updateReg, ADXL345_REG_OFSX, ADXL345_REG_OFSY, ADXL345_REG_OFSZ]
  constructor
  · intro regs v h1 h2
    exact ⟨hread regs (v + 256).toNat, by omega⟩
  · intro regs v h1 h2
    exact ⟨hread regs v.toNat, by omega⟩

/-- C10 witness: the negative offset -1 is stored as the byte 255 and read
back as 255, which is not -1. -/
theorem C10_witness :
    (-128 ≤ (-1 : ℤ)) ∧ ((-1 : ℤ) < 0) ∧
    ((getOffsets (setOffsetX (fun _ => 0) ((-1 : ℤ) + 256).toNat).regs).result =
        Except.ok { x := ((-1 : ℤ) + 256).toNat, y := 0, z := 0 } ∧
      (((-1 : ℤ) + 256).toNat : ℤ) ≠ -1) :=
  ⟨by norm_num, by norm_num,
   C10_offsets_raw_unsigned.1 (fun _ => 0) (-1) (by norm_num) (by norm_num)⟩

end ADXL345
